import Mathlib

/-!
# Verification of the ClickUp integration module (`src-tauri/src/clickup`)

Shallow embedding of the module's data model and operations:
* `types.rs` — the domain records.
* `commands.rs` — markdown rendering of task contexts
  (`format_clickup_task_context_markdown`,
  `format_clickup_subtask_context_markdown`), context loading
  (`load_clickup_task_context`) and context listing with its markdown
  reconstruction (`list_loaded_clickup_task_contexts`).
* `api.rs` — the authenticated request layer: `require_token`,
  `check_response`, the per-endpoint operations and `search_task_by_id`.
* `auth.rs` — the OAuth flow prelude of `clickup_start_oauth` and the
  one-shot `/callback` handler.

Effects are made explicit: the keychain is an `Option String` threaded
through each call, HTTP responses and JSON-parse outcomes are inputs, and
file writes / reference registrations are accumulated in lists.
-/

namespace ClickUp

/-! ## Data model (types.rs) -/

/-- `ClickUpStatus` from types.rs. -/
structure ClickUpStatus where
  status : String
  color : String
  status_type : String
deriving Repr, DecidableEq

/-- `ClickUpUser` from types.rs. -/
structure ClickUpUser where
  id : Nat
  username : String
  initials : String
deriving Repr, DecidableEq

/-- `ClickUpTask` from types.rs. -/
structure ClickUpTask where
  id : String
  custom_id : Option String
  name : String
  status : ClickUpStatus
  date_created : String
  url : String
  parent : Option String
  assignees : List ClickUpUser
deriving Repr, DecidableEq

/-- `ClickUpComment` from types.rs. -/
structure ClickUpComment where
  comment_text : String
  user : ClickUpUser
  date : String
deriving Repr, DecidableEq

/-- `ClickUpTaskDetail` from types.rs. -/
structure ClickUpTaskDetail where
  id : String
  custom_id : Option String
  name : String
  description : Option String
  markdown_description : Option String
  status : ClickUpStatus
  date_created : String
  url : String
  comments : List ClickUpComment
  subtasks : List ClickUpTask
deriving Repr, DecidableEq

/-- `ClickUpWorkspace` from types.rs. -/
structure ClickUpWorkspace where
  id : String
  name : String
deriving Repr, DecidableEq

/-- `ClickUpSpace` from types.rs. -/
structure ClickUpSpace where
  id : String
  name : String
deriving Repr, DecidableEq

/-- `ClickUpAuthenticatedUser` from types.rs. -/
structure ClickUpAuthenticatedUser where
  id : Nat
  username : String
  email : String
  color : Option String
  profile_picture : Option String
  initials : Option String
deriving Repr, DecidableEq

/-- `ClickUpTaskListResult` from types.rs. -/
structure ClickUpTaskListResult where
  tasks : List ClickUpTask
  last_page : Bool
deriving Repr, DecidableEq

/-- `LoadedClickUpTaskContext` from types.rs (counts as `Nat`). -/
structure LoadedClickUpTaskContext where
  id : String
  custom_id : Option String
  name : String
  comment_count : Nat
  workspace_id : String
  subtask_count : Nat
deriving Repr, DecidableEq

/-- `SubtaskInfo` from commands.rs. -/
structure SubtaskInfo where
  id : String
  name : String
  status : String
deriving Repr, DecidableEq

/-! ## String primitives

The Rust code uses `str::lines().next()`, `str::strip_prefix`,
`str::split_once` and `str::matches(pat).count()`.  They are embedded
here over `String.data` so that every function is structurally recursive
and kernel-evaluable. -/

/-- Greedy, non-overlapping substring scan, as `str::matches(pat).count()`:
the second list is scanned left to right; on a match the whole pattern is
consumed (`skip` counts the characters of a match still to be consumed). -/
def countOccA (p : List Char) : List Char → Nat → Nat
  | [], _ => 0
  | _ :: l, skip + 1 => countOccA p l skip
  | c :: l, 0 =>
    if p.isPrefixOf (c :: l) then 1 + countOccA p l (p.length - 1)
    else countOccA p l 0

/-- `str::matches(pat).count()`: number of non-overlapping occurrences of
`pat` in `s`, scanning left to right. -/
def countMatches (s pat : String) : Nat := countOccA pat.data s.data 0

/-- `str::contains(pat)`. -/
def containsSub (s pat : String) : Bool := 0 < countMatches s pat

/-- `str::starts_with(p)`. -/
def strStartsWith (s p : String) : Bool := p.data.isPrefixOf s.data

/-- `str::strip_prefix(p)`: drop `p` from the front of `s` when it is a
prefix. -/
def dropPref? (s p : String) : Option String :=
  if p.data.isPrefixOf s.data then some ⟨s.data.drop p.data.length⟩ else none

/-- `str::split_once(sep)` on character lists: split at the first
occurrence of `sep`. -/
def splitOnceList (sep : List Char) : List Char → Option (List Char × List Char)
  | [] => none
  | c :: l =>
    if sep.isPrefixOf (c :: l) then some ([], (c :: l).drop sep.length)
    else
      match splitOnceList sep l with
      | some (a, b) => some (c :: a, b)
      | none => none

/-- `str::split_once(sep)`. -/
def splitOnce? (s sep : String) : Option (String × String) :=
  match splitOnceList sep.data s.data with
  | some (a, b) => some (⟨a⟩, ⟨b⟩)
  | none => none

/-- `str::lines().next()`: the text before the first `'\n'` (with one
trailing `'\r'` stripped), `none` on the empty string. -/
def firstLine? (s : String) : Option String :=
  if s.data = [] then none
  else
    let l := s.data.takeWhile (fun c => c != '\n')
    some ⟨if l.getLast? = some '\r' then l.dropLast else l⟩

/-- The custom-ID shape test of `list_loaded_clickup_task_contexts`:
`is_ascii_uppercase || is_ascii_digit || == '-'` over all characters. -/
def isCustomIdChars (s : String) : Bool :=
  s.data.all fun c => c.isUpper || c.isDigit || c == '-'

/-! ## Markdown rendering (commands.rs) -/

/-- One subtask bullet of the parent context file (loop body in
`format_clickup_task_context_markdown`). -/
def subtaskBullet (sub : SubtaskInfo) : String :=
  "- **" ++ sub.name ++ "** [" ++ sub.status ++ "] — " ++ "see `clickup-subtask-"
    ++ sub.id ++ ".md`\n"

/-- The `## Subtasks` bullets, in order. -/
def subtaskBullets : List SubtaskInfo → String
  | [] => ""
  | sub :: rest => subtaskBullet sub ++ subtaskBullets rest

/-- One comment block (loop body of the `## Comments` section). -/
def commentBlock (comment : ClickUpComment) : String :=
  "### @" ++ comment.user.username ++ " (" ++ comment.date ++ ")\n\n"
    ++ comment.comment_text ++ "\n\n---\n\n"

/-- The `## Comments` blocks, in order. -/
def commentBlocks : List ClickUpComment → String
  | [] => ""
  | comment :: rest => commentBlock comment ++ commentBlocks rest

/-- The description body: the description text, or the literal placeholder
when it is `None` or empty. -/
def descriptionBody (description : Option String) : String :=
  match description with
  | some d => if d.isEmpty then "*No description provided.*" else d
  | none => "*No description provided.*"

/-- `format_clickup_task_context_markdown` from commands.rs: the parent
task context file. -/
def format_clickup_task_context_markdown
    (task : ClickUpTaskDetail) (subtasks : List SubtaskInfo) : String :=
  let idPart :=
    match task.custom_id with
    | some cid => cid ++ ": "
    | none => ""
  "# ClickUp Task " ++ idPart ++ task.name ++ "\n\n"
    ++ "---\n\n"
    ++ "## Description\n\n" ++ descriptionBody task.description ++ "\n\n"
    ++ (if subtasks.isEmpty then ""
        else "## Subtasks\n\n" ++ subtaskBullets subtasks ++ "\n")
    ++ (if task.comments.isEmpty then ""
        else "## Comments\n\n" ++ commentBlocks task.comments)
    ++ "---\n\n"
    ++ "*Investigate this task and propose a solution.*\n"

/-- `format_clickup_subtask_context_markdown` from commands.rs. -/
def format_clickup_subtask_context_markdown
    (subtask : ClickUpTaskDetail) (parent_id parent_name : String) : String :=
  let idPart :=
    match subtask.custom_id with
    | some cid => cid ++ ": "
    | none => ""
  "# ClickUp Subtask " ++ idPart ++ subtask.name ++ "\n\n"
    ++ "**Parent:** " ++ parent_name ++ " (`clickup-task-" ++ parent_id ++ ".md`)\n\n"
    ++ "---\n\n"
    ++ "## Description\n\n" ++ descriptionBody subtask.description ++ "\n\n"
    ++ (if subtask.comments.isEmpty then ""
        else "## Comments\n\n" ++ commentBlocks subtask.comments)
    ++ "---\n\n"
    ++ "*Context for parent task " ++ parent_id ++ ".*\n"

/-! ## Context reconstruction (commands.rs, `list_loaded_clickup_task_contexts`) -/

/-- The per-file reconstruction of `list_loaded_clickup_task_contexts`
(lines 500–553): parse the first heading line for name and custom ID,
count `"### @"` occurrences for comments and
``"see `clickup-subtask-"`` occurrences for subtasks; the workspace
identifier is not stored in the file and is left empty. -/
def reconstructRecord (task_id : String) (content : String) : LoadedClickUpTaskContext :=
  let headRest := (firstLine? content).bind fun line => dropPref? line "# ClickUp Task "
  let name :=
    match headRest with
    | some rest =>
      match splitOnce? rest ": " with
      | some (pre, after_colon) =>
        if isCustomIdChars pre then after_colon else rest
      | none => rest
    | none => "Task " ++ task_id
  let custom_id :=
    headRest.bind fun rest =>
      match splitOnce? rest ": " with
      | some (pre, _) => if isCustomIdChars pre then some pre else none
      | none => none
  { id := task_id
    custom_id := custom_id
    name := name
    comment_count := countMatches content "### @"
    workspace_id := ""
    subtask_count := countMatches content "see `clickup-subtask-" }

/-- The key merging of `list_loaded_clickup_task_contexts` (lines
471–482): session keys, extended with any worktree keys not already
present, in order. -/
def mergeTaskKeys (session_keys : List String) (worktree_keys : Option (List String)) :
    List String :=
  match worktree_keys with
  | none => session_keys
  | some wt =>
    wt.foldl (fun acc k => if acc.contains k then acc else acc ++ [k]) session_keys

/-- The loop body of `list_loaded_clickup_task_contexts`: a key without
the `clickup-` prefix is skipped (`continue`), a missing file is
silently skipped, otherwise the parsed record is appended. -/
def listStep (readFile : String → Option String)
    (acc : List LoadedClickUpTaskContext) (key : String) :
    List LoadedClickUpTaskContext :=
  match dropPref? key "clickup-" with
  | none => acc
  | some task_id =>
    match readFile ("clickup-task-" ++ task_id ++ ".md") with
    | some content => acc ++ [reconstructRecord task_id content]
    | none => acc

/-- `list_loaded_clickup_task_contexts` from commands.rs, over the merged
reference keys and an abstract read-only filesystem (`readFile` returns
the content of an existing file, `none` when the file is missing). -/
def list_loaded_clickup_task_contexts
    (task_keys : List String) (readFile : String → Option String) :
    List LoadedClickUpTaskContext :=
  task_keys.foldl (listStep readFile) []

/-! ## API client (api.rs)

The keychain (keychain.rs) is an opaque secret store; its observable
state is the stored token, `Option String`, threaded through each call.
HTTP is external: a call takes the outcome of `send()` (a transport
error or an `HttpResponse`) and the JSON-deserialization outcome as
inputs.  `ApiOutcome.requests` records how many HTTP requests the call
issued. -/

/-- `ClickUpApiError` from api.rs. -/
inductive ClickUpApiError where
  | AuthError (msg : String)
  | RateLimited (reset_at : Option Nat)
  | RequestError (msg : String)
deriving Repr, DecidableEq

/-- The `Display` impl of `ClickUpApiError` (used by the `From<…> for
String` conversion that `?` applies in commands.rs). -/
def ClickUpApiError.toMessage : ClickUpApiError → String
  | .AuthError msg => "Authentication error: " ++ msg
  | .RateLimited (some ts) => "Rate limited. Retry after timestamp " ++ toString ts
  | .RateLimited none => "Rate limited. Please wait before retrying."
  | .RequestError msg => msg

/-- An HTTP response: status code, the two rate-limit headers, and the
body text. -/
structure HttpResponse where
  status : Nat
  rlRemaining : Option Nat
  rlReset : Option Nat
  body : String
deriving Repr, DecidableEq

/-- `StatusCode::is_success()`: 2xx. -/
def isSuccessStatus (status : Nat) : Bool := 200 ≤ status && status < 300

/-- Outcome of one API call: requests issued, keychain state afterwards,
and the result. -/
structure ApiOutcome (α : Type) where
  requests : Nat
  store : Option String
  result : Except ClickUpApiError α
deriving Repr

/-- The `AuthError` message produced when no token is stored. -/
def notAuthMsg : String := "Not authenticated with ClickUp. Please sign in first."

/-- `require_token` from api.rs: read the keychain, `AuthError` when no
token is stored. -/
def require_token (store : Option String) : Except ClickUpApiError String :=
  match store with
  | some token => .ok token
  | none => .error (.AuthError notAuthMsg)

/-- The `AuthError` message produced on HTTP 401. -/
def invalidTokenMsg : String := "ClickUp token is invalid or expired. Please sign in again."

/-- `check_response` from api.rs: 401 clears the keychain and returns
`AuthError`; 429 returns `RateLimited` with the reset header; any other
non-2xx returns `RequestError` with status and body. -/
def check_response (store : Option String) (response : HttpResponse) :
    Option String × Except ClickUpApiError HttpResponse :=
  if response.status = 401 then
    (none, .error (.AuthError invalidTokenMsg))
  else if response.status = 429 then
    (store, .error (.RateLimited response.rlReset))
  else if !isSuccessStatus response.status then
    (store, .error (.RequestError
      ("ClickUp API error (HTTP " ++ toString response.status ++ "): " ++ response.body)))
  else (store, .ok response)

/-- `get_authorized_user` from api.rs. -/
def get_authorized_user (store : Option String)
    (send : Except String HttpResponse)
    (parse : HttpResponse → Except String ClickUpAuthenticatedUser) :
    ApiOutcome ClickUpAuthenticatedUser :=
  match require_token store with
  | .error e => ⟨0, store, .error e⟩
  | .ok _token =>
    match send with
    | .error e => ⟨1, store, .error (.RequestError ("Failed to fetch user: " ++ e))⟩
    | .ok response =>
      match check_response store response with
      | (store', .error e) => ⟨1, store', .error e⟩
      | (store', .ok r) =>
        match parse r with
        | .error e => ⟨1, store', .error (.RequestError ("Failed to parse user: " ++ e))⟩
        | .ok user => ⟨1, store', .ok user⟩

/-- `list_workspaces` from api.rs. -/
def list_workspaces (store : Option String)
    (send : Except String HttpResponse)
    (parse : HttpResponse → Except String (List ClickUpWorkspace)) :
    ApiOutcome (List ClickUpWorkspace) :=
  match require_token store with
  | .error e => ⟨0, store, .error e⟩
  | .ok _token =>
    match send with
    | .error e => ⟨1, store, .error (.RequestError ("Failed to fetch workspaces: " ++ e))⟩
    | .ok response =>
      match check_response store response with
      | (store', .error e) => ⟨1, store', .error e⟩
      | (store', .ok r) =>
        match parse r with
        | .error e => ⟨1, store', .error (.RequestError ("Failed to parse workspaces: " ++ e))⟩
        | .ok teams => ⟨1, store', .ok teams⟩

/-- `list_spaces` from api.rs. -/
def list_spaces (_workspace_id : String) (store : Option String)
    (send : Except String HttpResponse)
    (parse : HttpResponse → Except String (List ClickUpSpace)) :
    ApiOutcome (List ClickUpSpace) :=
  match require_token store with
  | .error e => ⟨0, store, .error e⟩
  | .ok _token =>
    match send with
    | .error e => ⟨1, store, .error (.RequestError ("Failed to fetch spaces: " ++ e))⟩
    | .ok response =>
      match check_response store response with
      | (store', .error e) => ⟨1, store', .error e⟩
      | (store', .ok r) =>
        match parse r with
        | .error e => ⟨1, store', .error (.RequestError ("Failed to parse spaces: " ++ e))⟩
        | .ok spaces => ⟨1, store', .ok spaces⟩

/-- `list_tasks` from api.rs (the filtered team-tasks listing; the query
parameters only shape the request URL). -/
def list_tasks (_workspace_id : String) (_space_ids : List String)
    (_include_closed : Bool) (_page : Nat) (_assignees : Option (List Nat))
    (_subtasks : Bool) (store : Option String)
    (send : Except String HttpResponse)
    (parse : HttpResponse → Except String ClickUpTaskListResult) :
    ApiOutcome ClickUpTaskListResult :=
  match require_token store with
  | .error e => ⟨0, store, .error e⟩
  | .ok _token =>
    match send with
    | .error e => ⟨1, store, .error (.RequestError ("Failed to fetch tasks: " ++ e))⟩
    | .ok response =>
      match check_response store response with
      | (store', .error e) => ⟨1, store', .error e⟩
      | (store', .ok r) =>
        match parse r with
        | .error e => ⟨1, store', .error (.RequestError ("Failed to parse tasks: " ++ e))⟩
        | .ok data => ⟨1, store', .ok data⟩

/-- `get_task` from api.rs: on success, `markdown_description` (when
present) replaces `description` and is then dropped. -/
def get_task (_task_id : String) (store : Option String)
    (send : Except String HttpResponse)
    (parse : HttpResponse → Except String ClickUpTaskDetail) :
    ApiOutcome ClickUpTaskDetail :=
  match require_token store with
  | .error e => ⟨0, store, .error e⟩
  | .ok _token =>
    match send with
    | .error e => ⟨1, store, .error (.RequestError ("Failed to fetch task: " ++ e))⟩
    | .ok response =>
      match check_response store response with
      | (store', .error e) => ⟨1, store', .error e⟩
      | (store', .ok r) =>
        match parse r with
        | .error e => ⟨1, store', .error (.RequestError ("Failed to parse task: " ++ e))⟩
        | .ok task =>
          let task :=
            if task.markdown_description.isSome then
              { task with description := task.markdown_description,
                          markdown_description := none }
            else task
          ⟨1, store', .ok task⟩

/-- `get_task_comments` from api.rs. -/
def get_task_comments (_task_id : String) (store : Option String)
    (send : Except String HttpResponse)
    (parse : HttpResponse → Except String (List ClickUpComment)) :
    ApiOutcome (List ClickUpComment) :=
  match require_token store with
  | .error e => ⟨0, store, .error e⟩
  | .ok _token =>
    match send with
    | .error e => ⟨1, store, .error (.RequestError ("Failed to fetch comments: " ++ e))⟩
    | .ok response =>
      match check_response store response with
      | (store', .error e) => ⟨1, store', .error e⟩
      | (store', .ok r) =>
        match parse r with
        | .error e => ⟨1, store', .error (.RequestError ("Failed to parse comments: " ++ e))⟩
        | .ok comments => ⟨1, store', .ok comments⟩

/-- `search_task_by_id` from api.rs: two sequential lookups.  The first
(internal-ID) lookup short-circuits on 401 (clearing the keychain) and
429; a 2xx with a parseable body returns the task; any other outcome
falls through to the custom-ID lookup, which classifies its response the
same way; `ok none` when both are inconclusive. -/
def search_task_by_id (_query _workspace_id : String) (store : Option String)
    (send1 : Except String HttpResponse)
    (parse1 : HttpResponse → Except String ClickUpTask)
    (send2 : Except String HttpResponse)
    (parse2 : HttpResponse → Except String ClickUpTask) :
    ApiOutcome (Option ClickUpTask) :=
  match require_token store with
  | .error e => ⟨0, store, .error e⟩
  | .ok _token =>
    match send1 with
    | .error e => ⟨1, store, .error (.RequestError ("Failed to fetch task: " ++ e))⟩
    | .ok r1 =>
      if r1.status = 401 then
        ⟨1, none, .error (.AuthError invalidTokenMsg)⟩
      else if r1.status = 429 then
        ⟨1, store, .error (.RateLimited r1.rlReset)⟩
      else
        let firstHit : Option ClickUpTask :=
          if isSuccessStatus r1.status then (parse1 r1).toOption else none
        match firstHit with
        | some task => ⟨1, store, .ok (some task)⟩
        | none =>
          match send2 with
          | .error e =>
            ⟨2, store, .error (.RequestError ("Failed to fetch task by custom ID: " ++ e))⟩
          | .ok r2 =>
            if r2.status = 401 then
              ⟨2, none, .error (.AuthError invalidTokenMsg)⟩
            else if r2.status = 429 then
              ⟨2, store, .error (.RateLimited r2.rlReset)⟩
            else if isSuccessStatus r2.status then
              match parse2 r2 with
              | .ok task => ⟨2, store, .ok (some task)⟩
              | .error _ => ⟨2, store, .ok none⟩
            else ⟨2, store, .ok none⟩

/-! ## Context materialization (commands.rs, `load_clickup_task_context`)

The three initial fetches and the per-subtask fetches are joined futures;
their outcomes are inputs here.  File writes and reference registrations
(external `github_issues` module) are accumulated as lists. -/

/-- The subtask filter of `load_clickup_task_context` (lines 369–378):
the listed tasks whose `parent` equals the queried task id. -/
def subtasksOf (task_id : String) (result : ClickUpTaskListResult) : List ClickUpTask :=
  result.tasks.filter fun t => t.parent == some task_id

/-- What a successful `load_clickup_task_context` produced: the files
written (name, content) in order, the references registered (task key,
session id) in order, and the returned summary record. -/
structure LoadResult where
  writes : List (String × String)
  refs : List (String × String)
  record : LoadedClickUpTaskContext
deriving Repr, DecidableEq

/-- `load_clickup_task_context` from commands.rs.  `task_result`,
`comments_result` and `subtasks_result` are the outcomes of the three
initial parallel fetches; `subFetch` gives each subtask's detail and
comments fetch outcomes.  The two `?` on `task_result` and
`comments_result` abort with the error's message; a failed
`subtasks_result` is replaced by an empty listing
(`.unwrap_or_default()`); a failed subtask fetch skips that subtask. -/
def load_clickup_task_context (session_id task_id workspace_id : String)
    (task_result : Except ClickUpApiError ClickUpTaskDetail)
    (comments_result : Except ClickUpApiError (List ClickUpComment))
    (subtasks_result : Except ClickUpApiError ClickUpTaskListResult)
    (subFetch : String →
      Except ClickUpApiError ClickUpTaskDetail × Except ClickUpApiError (List ClickUpComment)) :
    Except String LoadResult :=
  match task_result with
  | .error e => .error e.toMessage
  | .ok task =>
    match comments_result with
    | .error e => .error e.toMessage
    | .ok comments =>
      let comment_count := comments.length
      let task := { task with comments := comments }
      let subtask_tasks : List ClickUpTask :=
        match subtasks_result with
        | .ok result => subtasksOf task_id result
        | .error _ => []
      let parent_name := task.name
      let step := fun (acc : List SubtaskInfo × List (String × String) × List (String × String))
          (sub : ClickUpTask) =>
        let (infos, writes, refs) := acc
        match subFetch sub.id with
        | (.ok detail, .ok sub_comments) =>
          let detail := { detail with comments := sub_comments }
          let info : SubtaskInfo := ⟨detail.id, detail.name, detail.status.status⟩
          let content := format_clickup_subtask_context_markdown detail task_id parent_name
          (infos ++ [info],
           writes ++ [("clickup-subtask-" ++ sub.id ++ ".md", content)],
           refs ++ [(sub.id, session_id)])
        | _ => acc
      let acc := subtask_tasks.foldl step ([], [], [])
      let subtask_infos := acc.1
      let writes := acc.2.1
      let refs := acc.2.2
      let subtask_count := subtask_infos.length
      let context_content := format_clickup_task_context_markdown task subtask_infos
      .ok { writes := writes ++ [("clickup-task-" ++ task_id ++ ".md", context_content)]
            refs := refs ++ [(task_id, session_id)]
            record := { id := task.id
                        custom_id := task.custom_id
                        name := task.name
                        comment_count := comment_count
                        workspace_id := workspace_id
                        subtask_count := subtask_count } }

/-! ## OAuth flow (auth.rs) -/

/-- The confirmation page of the OAuth callback (abbreviated to its
heading; only its identity matters). -/
def SUCCESS_HTML : String := "<html>Connected to ClickUp</html>"

/-- The failure page of the OAuth callback (abbreviated to its heading;
only its identity matters). -/
def ERROR_HTML : String := "<html>Connection Failed</html>"

/-- `CallbackParams` from auth.rs: the query parameters of a `/callback`
request. -/
structure CallbackParams where
  code : Option String
  error : Option String
deriving Repr, DecidableEq

deriving instance DecidableEq for Except

/-- The observable state of the one-shot code channel: whether the
sender is still in the `Mutex<Option<Sender>>` slot, and the value sent
through it, if any. -/
structure OAuthSignalState where
  tx_present : Bool
  delivered : Option (Except String String)
deriving Repr, DecidableEq

/-- The freshly created channel: sender present, nothing delivered. -/
def initialSignalState : OAuthSignalState := { tx_present := true, delivered := none }

/-- The `/callback` handler closure of `clickup_start_oauth` (auth.rs
lines 99–119): take the sender if still present; with a `code` send
`Ok(code)` and answer the success page, otherwise send `Err` of the
`error` parameter (or a default message) and answer the error page;
when the sender is already gone answer the success page unchanged. -/
def handle_callback (st : OAuthSignalState) (query : CallbackParams) :
    OAuthSignalState × String :=
  if st.tx_present then
    match query.code with
    | some code => ({ tx_present := false, delivered := some (.ok code) }, SUCCESS_HTML)
    | none =>
      let err := query.error.getD "No authorization code received"
      ({ tx_present := false, delivered := some (.error err) }, ERROR_HTML)
  else (st, SUCCESS_HTML)

/-- Run the callback handler over a sequence of `/callback` requests,
from the fresh channel state, collecting the responses in order. -/
def runCallbacks (queries : List CallbackParams) : OAuthSignalState × List String :=
  queries.foldl (fun acc q =>
      let (st', page) := handle_callback acc.1 q
      (st', acc.2 ++ [page]))
    (initialSignalState, [])

/-- The value the handler resolves the one-shot signal with for a given
request. -/
def callbackOutcome (query : CallbackParams) : Except String String :=
  match query.code with
  | some code => .ok code
  | none => .error (query.error.getD "No authorization code received")

/-- The page the handler answers a signal-resolving request with. -/
def callbackPage (query : CallbackParams) : String :=
  if query.code.isSome then SUCCESS_HTML else ERROR_HTML

/-- `open_in_browser` from auth.rs: wraps a failed process spawn in a
`Failed to open browser:` message. -/
def open_in_browser (spawn_result : Except String Unit) : Except String Unit :=
  match spawn_result with
  | .ok _ => .ok ()
  | .error e => .error ("Failed to open browser: " ++ e)

/-- Where `clickup_start_oauth` ends up before awaiting the callback. -/
inductive OAuthPrelude where
  /-- Returned early: empty client id or secret. -/
  | configError (msg : String)
  /-- Returned early: binding the listener on port 8642 failed. -/
  | bindError (msg : String)
  /-- Returned early: `open_in_browser` failed (the `?` on line 89). -/
  | browserError (msg : String)
  /-- Reached line 92: the channel is created, the callback server is
  spawned and the flow awaits the one-shot signal. -/
  | awaitingCallback
deriving Repr, DecidableEq

/-- The prelude of `clickup_start_oauth` (auth.rs lines 70–92): validate
the credentials, bind the listener, open the browser — each failure
returns early — and only then spawn the callback server and await the
signal. -/
def clickup_start_oauth_prelude (client_id client_secret : String)
    (bind_result : Except String Unit) (spawn_result : Except String Unit) :
    OAuthPrelude :=
  if client_id.isEmpty || client_secret.isEmpty then
    .configError "Client ID and Client Secret are required"
  else
    match bind_result with
    | .error e =>
      .bindError ("Failed to bind OAuth callback server on port 8642: " ++ e
        ++ ". Is another process using this port?")
    | .ok _ =>
      match open_in_browser spawn_result with
      | .error e => .browserError e
      | .ok _ => .awaitingCallback

/-! ## Substring-counting lemmas

`list_loaded_clickup_task_contexts` counts the patterns `"### @"` and
``"see `clickup-subtask-"`` in the rendered file.  The lemmas below
locate those occurrences: a segment that does not contain the pattern's
anchor character contributes nothing, the emitted marker itself
contributes exactly one. -/

/-- The comment marker `"### @"` as characters. -/
abbrev commentMarker : List Char := ['#', '#', '#', ' ', '@']

/-- The subtask marker ``"see `clickup-subtask-"`` as characters. -/
abbrev subMarker : List Char :=
  ['s', 'e', 'e', ' ', '`', 'c', 'l', 'i', 'c', 'k', 'u', 'p', '-',
   's', 'u', 'b', 't', 'a', 's', 'k', '-']

/-- The fixed text between a subtask id and the end of its bullet. -/
abbrev mdTail : List Char := ['.', 'm', 'd', '`', '\n']

theorem commentMarker_eq : "### @".data = commentMarker := rfl

theorem subMarker_eq : "see `clickup-subtask-".data = subMarker := rfl

theorem memOfGetElem? {l : List Char} {a : Char} {n : Nat} (h : l[n]? = some a) : a ∈ l := by
  obtain ⟨hlt, he⟩ := List.getElem?_eq_some.1 h
  exact he ▸ List.getElem_mem hlt

theorem notMemOfContains {l : List Char} {a : Char} (h : l.contains a = false) : a ∉ l := by
  intro hm
  have him : l.contains a = true := List.elem_eq_true_of_mem hm
  rw [h] at him
  exact Bool.noConfusion him

/-- Skipping `xs.length` characters lands right after `xs`. -/
theorem countOccA_skip (p : List Char) (xs ys : List Char) :
    countOccA p (xs ++ ys) xs.length = countOccA p ys 0 := by
  induction xs with
  | nil => rfl
  | cons c xs ih => simpa [countOccA] using ih

/-- A match at the head consumes the whole pattern. -/
theorem countOccA_consume (p : List Char) (hp : p ≠ []) (ys : List Char) :
    countOccA p (p ++ ys) 0 = 1 + countOccA p ys 0 := by
  cases p with
  | nil => exact absurd rfl hp
  | cons a p' =>
    have hpre : (a :: p').isPrefixOf (a :: (p' ++ ys)) = true := by
      rw [List.isPrefixOf_iff_prefix]
      exact List.prefix_append (a :: p') ys
    rw [List.cons_append, countOccA, if_pos hpre]
    simpa [countOccA] using countOccA_skip (a :: p') p' ys

/-- A head character that does not start a match is skipped. -/
theorem countOccA_skipChar (p : List Char) (c : Char) (l : List Char)
    (h : p.isPrefixOf (c :: l) = false) :
    countOccA p (c :: l) 0 = countOccA p l 0 := by
  cases p with
  | nil => simp [List.isPrefixOf] at h
  | cons a p' => rw [countOccA, if_neg (by rw [h]; exact Bool.noConfusion)]

/-- A segment where no match can start contributes nothing. -/
theorem countOccA_append_noStart (p xs ys : List Char)
    (h : ∀ i, i < xs.length → p.isPrefixOf (List.drop i (xs ++ ys)) = false) :
    countOccA p (xs ++ ys) 0 = countOccA p ys 0 := by
  induction xs with
  | nil => rfl
  | cons c xs ih =>
    have h0 := h 0 (Nat.succ_pos _)
    rw [List.drop_zero, List.cons_append] at h0
    rw [List.cons_append, countOccA_skipChar p c (xs ++ ys) h0]
    refine ih fun i hi => ?_
    have := h (i + 1) (by simpa using Nat.succ_lt_succ hi)
    simpa using this

/-- A prefix agrees with the list position by position. -/
theorem isPrefixOf_getElem? {p l : List Char} (h : p.isPrefixOf l = true)
    {j : Nat} (hj : j < p.length) : l[j]? = p[j]? := by
  rw [List.isPrefixOf_iff_prefix] at h
  obtain ⟨t, ht⟩ := h
  rw [← ht, List.getElem?_append_left hj]

/-- Anchor lemma: if the pattern has character `a` at index `k`, a
segment `xs` free of `a` (with no `a` among the next `k` characters
either) cannot host the start of a match. -/
theorem countOccA_append_anchor (p : List Char) (k : Nat) (a : Char)
    (hk : p[k]? = some a) (xs ys : List Char)
    (hxs : a ∉ xs) (hys : a ∉ ys.take k) :
    countOccA p (xs ++ ys) 0 = countOccA p ys 0 := by
  have hklen : k < p.length := (List.getElem?_eq_some.1 hk).1
  refine countOccA_append_noStart p xs ys fun i hi => ?_
  cases hb : p.isPrefixOf (List.drop i (xs ++ ys)) with
  | false => rfl
  | true =>
    exfalso
    have hgk := isPrefixOf_getElem? hb hklen
    rw [List.getElem?_drop, hk] at hgk
    by_cases hA : i + k < xs.length
    · rw [List.getElem?_append_left hA] at hgk
      exact hxs (memOfGetElem? hgk)
    · have hge : xs.length ≤ i + k := Nat.le_of_not_lt hA
      rw [List.getElem?_append_right hge] at hgk
      have hlt : i + k - xs.length < k := by omega
      have : (ys.take k)[i + k - xs.length]? = some a := by
        rw [List.getElem?_take]
        simp [hlt, hgk]
      exact hys (memOfGetElem? this)

/-- The scan invariant: `l` contains `n` occurrences of `p`, and the
anchor character `a` (sitting at index `k` of `p`) does not occur among
the first `k` characters of `l` — so a match cannot reach back into a
preceding `a`-free segment. -/
def SkipOk (p : List Char) (k : Nat) (a : Char) (n : Nat) (l : List Char) : Prop :=
  countOccA p l 0 = n ∧ a ∉ l.take k

theorem skipOk_nil (p : List Char) (k : Nat) (a : Char) : SkipOk p k a 0 [] :=
  ⟨rfl, by simp⟩

/-- Prepending an `a`-free segment preserves the invariant. -/
theorem skipOk_append_free {p : List Char} {k : Nat} {a : Char}
    (hk : p[k]? = some a) {n : Nat} {xs ys : List Char}
    (hxs : a ∉ xs) (hys : SkipOk p k a n ys) :
    SkipOk p k a n (xs ++ ys) := by
  refine ⟨?_, ?_⟩
  · rw [countOccA_append_anchor p k a hk xs ys hxs hys.2]
    exact hys.1
  · intro hmem
    rw [List.take_append_eq_append_take] at hmem
    rcases List.mem_append.1 hmem with h' | h'
    · exact hxs (List.take_subset _ _ h')
    · exact hys.2 (List.take_subset_take_left ys (Nat.sub_le k xs.length) h')

/-- An `a`-free list satisfies the invariant with count zero. -/
theorem skipOk_of_free {p : List Char} {k : Nat} {a : Char}
    (hk : p[k]? = some a) {l : List Char} (hl : a ∉ l) :
    SkipOk p k a 0 l := by
  have := skipOk_append_free hk hl (skipOk_nil p k a)
  simpa using this

/-- Consuming the marker itself: one occurrence, and the pattern's own
first `k` characters are `a`-free. -/
theorem skipOk_marker {p : List Char} {k : Nat} {a : Char}
    (hk : p[k]? = some a) (hp : p ≠ []) (hpk : a ∉ p.take k)
    {n : Nat} {ys : List Char} (hys : countOccA p ys 0 = n) :
    SkipOk p k a (n + 1) (p ++ ys) := by
  have hklen : k < p.length := (List.getElem?_eq_some.1 hk).1
  refine ⟨?_, ?_⟩
  · rw [countOccA_consume p hp ys, hys, Nat.add_comm]
  · rw [List.take_append_of_le_length (Nat.le_of_lt hklen)]
    exact hpk

/-- No subtask-marker match can start inside an `a`-free id directly
followed by ``".md`\n"``: a start there would need `' '` and ``'`'`` at
offsets 3 and 4, which the fixed tail refutes. -/
theorem countOccA_id_mdTail (i REST : List Char) (hi : '`' ∉ i) :
    countOccA subMarker (i ++ (mdTail ++ REST)) 0
      = countOccA subMarker (mdTail ++ REST) 0 := by
  refine countOccA_append_noStart _ _ _ fun j hj => ?_
  cases hb : subMarker.isPrefixOf (List.drop j (i ++ (mdTail ++ REST))) with
  | false => rfl
  | true =>
    exfalso
    have h4 := isPrefixOf_getElem? hb (show 4 < subMarker.length by decide)
    have h3 := isPrefixOf_getElem? hb (show 3 < subMarker.length by decide)
    rw [List.getElem?_drop, show subMarker[4]? = some '`' from rfl] at h4
    rw [List.getElem?_drop, show subMarker[3]? = some ' ' from rfl] at h3
    by_cases hA : j + 4 < i.length
    · rw [List.getElem?_append_left hA] at h4
      exact hi (memOfGetElem? h4)
    · have hge : i.length ≤ j + 4 := Nat.le_of_not_lt hA
      rw [List.getElem?_append_right hge] at h4
      have hdlt : j + 4 - i.length < 4 := by omega
      rw [List.getElem?_append_left (show j + 4 - i.length < mdTail.length by
        simp only [List.length_cons, List.length_nil]; omega)] at h4
      have he : j + 4 - i.length = 0 ∨ j + 4 - i.length = 1 ∨
          j + 4 - i.length = 2 ∨ j + 4 - i.length = 3 := by omega
      rcases he with he | he | he | he <;> rw [he] at h4
      · exact absurd h4 (by decide)
      · exact absurd h4 (by decide)
      · exact absurd h4 (by decide)
      · have hge3 : i.length ≤ j + 3 := by omega
        rw [List.getElem?_append_right hge3] at h3
        rw [show j + 3 - i.length = 2 by omega] at h3
        rw [List.getElem?_append_left (show (2 : Nat) < mdTail.length by decide)] at h3
        exact absurd h3 (by decide)

/-- The fixed bullet tail ``".md`\n"`` hosts no subtask-marker match. -/
theorem countOccA_mdTail (REST : List Char) :
    countOccA subMarker (mdTail ++ REST) 0 = countOccA subMarker REST 0 := by
  rw [show mdTail ++ REST = '.' :: ('m' :: ('d' :: ('`' :: ('\n' :: REST)))) from rfl,
    countOccA_skipChar subMarker '.' ('m' :: ('d' :: ('`' :: ('\n' :: REST)))) rfl,
    countOccA_skipChar subMarker 'm' ('d' :: ('`' :: ('\n' :: REST))) rfl,
    countOccA_skipChar subMarker 'd' ('`' :: ('\n' :: REST)) rfl,
    countOccA_skipChar subMarker '`' ('\n' :: REST) rfl,
    countOccA_skipChar subMarker '\n' REST rfl]

/-- The description body is `a`-free when the description text is. -/
theorem not_mem_descriptionBody {a : Char}
    (hph : a ∉ "*No description provided.*".data) {d : Option String}
    (hd : match d with | some s => a ∉ s.data | none => True) :
    a ∉ (descriptionBody d).data := by
  cases d with
  | none => exact hph
  | some s =>
    by_cases hs : s.isEmpty
    · simpa [descriptionBody, hs] using hph
    · simpa [descriptionBody, hs] using hd

/-- The subtask bullets contain no `'@'` when the subtask fields do not. -/
theorem not_mem_subtaskBullets_at (subs : List SubtaskInfo)
    (hf : ∀ s ∈ subs, '@' ∉ s.name.data ∧ '@' ∉ s.status.data ∧ '@' ∉ s.id.data) :
    '@' ∉ (subtaskBullets subs).data := by
  induction subs with
  | nil => simp [subtaskBullets]
  | cons s ss ih =>
    have hs := hf s (by simp)
    have hrest := ih fun x hx => hf x (by simp [hx])
    simp only [subtaskBullets, subtaskBullet, String.data_append, List.append_assoc,
      List.mem_append, not_or]
    exact ⟨by decide, hs.1, by decide, hs.2.1, by decide, by decide, hs.2.2, by decide, hrest⟩

/-- The comment blocks contain no backtick when the comment fields do
not. -/
theorem not_mem_commentBlocks_bt (cs : List ClickUpComment)
    (hf : ∀ c ∈ cs, '`' ∉ c.user.username.data ∧ '`' ∉ c.date.data ∧
      '`' ∉ c.comment_text.data) :
    '`' ∉ (commentBlocks cs).data := by
  induction cs with
  | nil => simp [commentBlocks]
  | cons c cs ih =>
    have hc := hf c (by simp)
    have hrest := ih fun x hx => hf x (by simp [hx])
    simp only [commentBlocks, commentBlock, String.data_append, List.append_assoc,
      List.mem_append, not_or]
    exact ⟨by decide, hc.1, by decide, hc.2.1, by decide, hc.2.2, by decide, hrest⟩

/-- `skipOk_append_free` specialized to the comment marker. -/
theorem skipOk_free_at {n : Nat} {xs ys : List Char} (hxs : '@' ∉ xs)
    (hys : SkipOk commentMarker 4 '@' n ys) :
    SkipOk commentMarker 4 '@' n (xs ++ ys) :=
  skipOk_append_free rfl hxs hys

/-- `skipOk_append_free` specialized to the subtask marker. -/
theorem skipOk_free_bt {n : Nat} {xs ys : List Char} (hxs : '`' ∉ xs)
    (hys : SkipOk subMarker 4 '`' n ys) :
    SkipOk subMarker 4 '`' n (xs ++ ys) :=
  skipOk_append_free rfl hxs hys

/-- `skipOk_of_free` specialized to the comment marker. -/
theorem skipOk_of_free_at {l : List Char} (hl : '@' ∉ l) :
    SkipOk commentMarker 4 '@' 0 l :=
  skipOk_of_free rfl hl

/-- `skipOk_of_free` specialized to the subtask marker. -/
theorem skipOk_of_free_bt {l : List Char} (hl : '`' ∉ l) :
    SkipOk subMarker 4 '`' 0 l :=
  skipOk_of_free rfl hl

/-- `skipOk_marker` specialized to the comment marker. -/
theorem skipOk_marker_at {n : Nat} {ys : List Char}
    (hys : countOccA commentMarker ys 0 = n) :
    SkipOk commentMarker 4 '@' (n + 1) (commentMarker ++ ys) :=
  skipOk_marker rfl (by decide) (by decide) hys

/-- `skipOk_marker` specialized to the subtask marker. -/
theorem skipOk_marker_bt {n : Nat} {ys : List Char}
    (hys : countOccA subMarker ys 0 = n) :
    SkipOk subMarker 4 '`' (n + 1) (subMarker ++ ys) :=
  skipOk_marker rfl (by decide) (by decide) hys

/-- Comment blocks contribute exactly one `"### @"` occurrence per
comment. -/
theorem skipOk_commentBlocks (cs : List ClickUpComment) (suffix : List Char)
    (hf : ∀ c ∈ cs, '@' ∉ c.user.username.data ∧ '@' ∉ c.date.data ∧
      '@' ∉ c.comment_text.data)
    (hsuf : SkipOk commentMarker 4 '@' 0 suffix) :
    SkipOk commentMarker 4 '@' cs.length ((commentBlocks cs).data ++ suffix) := by
  induction cs with
  | nil => simpa [commentBlocks] using hsuf
  | cons c cs ih =>
    have hc := hf c (by simp)
    have hrest := ih fun x hx => hf x (by simp [hx])
    simp only [commentBlocks, commentBlock, String.data_append, List.append_assoc,
      List.length_cons]
    refine skipOk_marker_at ?_
    refine (skipOk_free_at hc.1 ?_).1
    refine skipOk_free_at (by decide) ?_
    refine skipOk_free_at hc.2.1 ?_
    refine skipOk_free_at (by decide) ?_
    refine skipOk_free_at hc.2.2 ?_
    exact skipOk_free_at (by decide) hrest

/-- Subtask bullets contribute exactly one ``"see `clickup-subtask-"``
occurrence per subtask. -/
theorem skipOk_subtaskBullets (subs : List SubtaskInfo) (suffix : List Char)
    (hf : ∀ s ∈ subs, '`' ∉ s.name.data ∧ '`' ∉ s.status.data ∧ '`' ∉ s.id.data)
    (hsuf : SkipOk subMarker 4 '`' 0 suffix) :
    SkipOk subMarker 4 '`' subs.length ((subtaskBullets subs).data ++ suffix) := by
  induction subs with
  | nil => simpa [subtaskBullets] using hsuf
  | cons s ss ih =>
    have hs := hf s (by simp)
    have hrest := ih fun x hx => hf x (by simp [hx])
    simp only [subtaskBullets, subtaskBullet, String.data_append, List.append_assoc,
      List.length_cons]
    refine skipOk_free_bt (by decide) ?_
    refine skipOk_free_bt hs.1 ?_
    refine skipOk_free_bt (by decide) ?_
    refine skipOk_free_bt hs.2.1 ?_
    refine skipOk_free_bt (by decide) ?_
    refine skipOk_marker_bt ?_
    rw [countOccA_id_mdTail _ _ hs.2.2, countOccA_mdTail]
    exact hrest.1

/-- All free-text fields of a render are free of character `a`: the
name, the custom ID, the description, every subtask's name/status/id and
every comment's username/date/text. -/
abbrev taskFieldsFree (a : Char) (task : ClickUpTaskDetail)
    (subs : List SubtaskInfo) : Prop :=
  a ∉ task.name.data ∧
  (match task.custom_id with | some cid => a ∉ cid.data | none => True) ∧
  (match task.description with | some d => a ∉ d.data | none => True) ∧
  (∀ s ∈ subs, a ∉ s.name.data ∧ a ∉ s.status.data ∧ a ∉ s.id.data) ∧
  (∀ c ∈ task.comments, a ∉ c.user.username.data ∧ a ∉ c.date.data ∧
    a ∉ c.comment_text.data)

/-- The custom-ID prefix segment of the heading is `a`-free for
non-alphanumeric `a`. -/
theorem not_mem_idPart {a : Char} (task : ClickUpTaskDetail)
    (hcid : match task.custom_id with | some cid => a ∉ cid.data | none => True)
    (hfix : a ∉ (": ").data) :
    a ∉ (match task.custom_id with
         | some cid => cid ++ ": "
         | none => "").data := by
  cases hc : task.custom_id with
  | none => simp
  | some cid =>
    rw [hc] at hcid
    simp only [String.data_append, List.mem_append, not_or]
    exact ⟨hcid, hfix⟩

/-- Counting `"### @"` in the rendered parent markdown gives exactly the
number of comments, provided the free-text fields contain no `'@'`. -/
theorem countMatches_render_comments (task : ClickUpTaskDetail)
    (subs : List SubtaskInfo) (hf : taskFieldsFree '@' task subs) :
    countMatches (format_clickup_task_context_markdown task subs) "### @"
      = task.comments.length := by
  obtain ⟨hn, hcid, hd, hsubs, hcs⟩ := hf
  have hdesc : '@' ∉ (descriptionBody task.description).data :=
    not_mem_descriptionBody (by decide) hd
  have hidp := not_mem_idPart task hcid (by decide)
  have hsubsseg : '@' ∉ (if subs.isEmpty then ""
      else "## Subtasks\n\n" ++ subtaskBullets subs ++ "\n").data := by
    cases subs with
    | nil => simp
    | cons s ss =>
      simp only [List.isEmpty_cons, Bool.false_eq_true, if_false, String.data_append,
        List.append_assoc, List.mem_append, not_or]
      exact ⟨by decide, not_mem_subtaskBullets_at _ hsubs, by decide⟩
  rw [countMatches, commentMarker_eq]
  suffices h : SkipOk commentMarker 4 '@' task.comments.length
      (format_clickup_task_context_markdown task subs).data from h.1
  simp only [format_clickup_task_context_markdown, String.data_append, List.append_assoc]
  refine skipOk_free_at (by decide) ?_
  refine skipOk_free_at hidp ?_
  refine skipOk_free_at hn ?_
  refine skipOk_free_at (by decide) ?_
  refine skipOk_free_at (by decide) ?_
  refine skipOk_free_at (by decide) ?_
  refine skipOk_free_at hdesc ?_
  refine skipOk_free_at (by decide) ?_
  refine skipOk_free_at hsubsseg ?_
  cases hcse : task.comments with
  | nil =>
    simp only [List.isEmpty_nil, if_true, List.length_nil]
    exact skipOk_free_at (by decide) (skipOk_of_free_at (by decide))
  | cons c cs =>
    simp only [List.isEmpty_cons, Bool.false_eq_true, if_false, String.data_append,
      List.append_assoc, List.length_cons]
    refine skipOk_free_at (by decide) ?_
    have hcs' : ∀ x ∈ c :: cs, '@' ∉ x.user.username.data ∧ '@' ∉ x.date.data ∧
        '@' ∉ x.comment_text.data := by
      rw [← hcse]; exact hcs
    simpa using skipOk_commentBlocks (c :: cs) _ hcs' (skipOk_of_free_at (by decide))

/-- Counting ``"see `clickup-subtask-"`` in the rendered parent markdown
gives exactly the number of subtask bullets, provided the free-text
fields contain no backtick. -/
theorem countMatches_render_subtasks (task : ClickUpTaskDetail)
    (subs : List SubtaskInfo) (hf : taskFieldsFree '`' task subs) :
    countMatches (format_clickup_task_context_markdown task subs)
      "see `clickup-subtask-" = subs.length := by
  obtain ⟨hn, hcid, hd, hsubs, hcs⟩ := hf
  have hdesc : '`' ∉ (descriptionBody task.description).data :=
    not_mem_descriptionBody (by decide) hd
  have hidp := not_mem_idPart task hcid (by decide)
  have hcommseg : '`' ∉ (if task.comments.isEmpty then ""
      else "## Comments\n\n" ++ commentBlocks task.comments).data := by
    cases hcse : task.comments with
    | nil => simp
    | cons c cs =>
      simp only [List.isEmpty_cons, Bool.false_eq_true, if_false, String.data_append,
        List.mem_append, not_or]
      refine ⟨by decide, ?_⟩
      refine not_mem_commentBlocks_bt (c :: cs) ?_
      rw [← hcse]; exact hcs
  rw [countMatches, subMarker_eq]
  suffices h : SkipOk subMarker 4 '`' subs.length
      (format_clickup_task_context_markdown task subs).data from h.1
  simp only [format_clickup_task_context_markdown, String.data_append, List.append_assoc]
  refine skipOk_free_bt (by decide) ?_
  refine skipOk_free_bt hidp ?_
  refine skipOk_free_bt hn ?_
  refine skipOk_free_bt (by decide) ?_
  refine skipOk_free_bt (by decide) ?_
  refine skipOk_free_bt (by decide) ?_
  refine skipOk_free_bt hdesc ?_
  refine skipOk_free_bt (by decide) ?_
  have hrest : SkipOk subMarker 4 '`' 0
      ((if task.comments.isEmpty then ""
        else "## Comments\n\n" ++ commentBlocks task.comments).data
        ++ ("---\n\n".data ++ "*Investigate this task and propose a solution.*\n".data)) := by
    refine skipOk_free_bt hcommseg ?_
    refine skipOk_free_bt (by decide) ?_
    exact skipOk_of_free_bt
      (l := "*Investigate this task and propose a solution.*\n".data) (by decide)
  cases subs with
  | nil => simpa using hrest
  | cons s ss =>
    simp only [List.isEmpty_cons, Bool.false_eq_true, if_false, String.data_append,
      List.append_assoc, List.length_cons]
    refine skipOk_free_bt (by decide) ?_
    have hsuffix : SkipOk subMarker 4 '`' 0
        ("\n".data ++ ((if task.comments.isEmpty then ""
          else "## Comments\n\n" ++ commentBlocks task.comments).data
          ++ ("---\n\n".data ++ "*Investigate this task and propose a solution.*\n".data))) :=
      skipOk_free_bt (by decide) hrest
    have h1 := skipOk_subtaskBullets (s :: ss) _ hsubs hsuffix
    simpa using h1

/-! ## Heading-parse lemmas -/

theorem takeWhile_append_all (p : Char → Bool) (xs ys : List Char)
    (h : ∀ c ∈ xs, p c = true) :
    (xs ++ ys).takeWhile p = xs ++ ys.takeWhile p := by
  induction xs with
  | nil => rfl
  | cons c xs ih =>
    have hc := h c (by simp)
    rw [List.cons_append, List.takeWhile_cons, hc, if_pos rfl, List.cons_append,
      ih fun x hx => h x (by simp [hx])]

theorem getLast?_mem_own {l : List Char} {a : Char} (h : l.getLast? = some a) : a ∈ l := by
  induction l with
  | nil => simp at h
  | cons c l ih =>
    cases l with
    | nil =>
      simp only [List.getLast?_singleton, Option.some.injEq] at h
      simp [h]
    | cons d l' =>
      rw [List.getLast?_cons_cons] at h
      exact List.mem_cons_of_mem _ (ih h)

/-- Every character of a well-formed custom ID satisfies the charset
test. -/
theorem customIdChars_mem {cid : String} (h : isCustomIdChars cid = true)
    {c : Char} (hc : c ∈ cid.data) : (c.isUpper || c.isDigit || c == '-') = true := by
  rw [isCustomIdChars, List.all_eq_true] at h
  exact h c hc

/-- A charset character differs from any character failing the test. -/
theorem customIdChar_ne {c : Char} (hch : (c.isUpper || c.isDigit || c == '-') = true)
    {d : Char} (hd : (d.isUpper || d.isDigit || d == '-') = false) : c ≠ d := by
  intro he
  rw [he, hd] at hch
  exact Bool.noConfusion hch

/-- `split_once(": ")` on `cid ++ ": " ++ name` splits at the emitted
separator when `cid` is drawn from the custom-ID charset (which excludes
`':'`). -/
theorem splitOnceList_custom_aux (l : List Char)
    (h : ∀ c ∈ l, (c.isUpper || c.isDigit || c == '-') = true) (name : List Char) :
    splitOnceList [':', ' '] (l ++ (':' :: (' ' :: name))) = some (l, name) := by
  induction l with
  | nil => simp [splitOnceList]
  | cons c l ih =>
    have hc := h c (by simp)
    have hne : c ≠ ':' := customIdChar_ne hc (by decide)
    rw [List.cons_append, splitOnceList]
    rw [if_neg (by simp [List.isPrefixOf, Ne.symm hne])]
    rw [ih fun x hx => h x (by simp [hx])]

/-- `split_once(": ")` finds nothing in a colon-free list. -/
theorem splitOnceList_none (l : List Char) (h : ':' ∉ l) :
    splitOnceList [':', ' '] l = none := by
  induction l with
  | nil => rfl
  | cons c l ih =>
    have hne : c ≠ ':' := fun he => h (he ▸ List.mem_cons_self c l)
    rw [splitOnceList]
    rw [if_neg (by simp [List.isPrefixOf, Ne.symm hne])]
    rw [ih fun hx => h (List.mem_cons_of_mem _ hx)]

/-- Stripping the fixed heading prefix. -/
theorem dropPref_header (midname : List Char) :
    dropPref? ⟨"# ClickUp Task ".data ++ midname⟩ "# ClickUp Task " = some ⟨midname⟩ := by
  rw [dropPref?]
  rw [if_pos (by rw [List.isPrefixOf_iff_prefix]; exact List.prefix_append _ _)]
  exact congrArg some (congrArg String.mk (List.drop_left _ _))

/-- The first line of the rendered markdown is exactly the heading,
when the name has no newline or carriage return and the custom ID (if
any) is drawn from the charset. -/
theorem reconstruct_header (task : ClickUpTaskDetail) (subs : List SubtaskInfo)
    (hnl : '\n' ∉ task.name.data) (hcr : '\r' ∉ task.name.data)
    (hcid : match task.custom_id with
            | some cid => isCustomIdChars cid = true
            | none => True) :
    firstLine? (format_clickup_task_context_markdown task subs)
      = some ⟨"# ClickUp Task ".data
          ++ ((match task.custom_id with
               | some cid => cid ++ ": "
               | none => "").data ++ task.name.data)⟩ := by
  have hmid : ∀ c ∈ (match task.custom_id with
      | some cid => cid ++ ": " | none => "").data, (c != '\n') = true := by
    cases hc : task.custom_id with
    | none => simp
    | some cid =>
      rw [hc] at hcid
      intro c hcmem
      rw [String.data_append] at hcmem
      rcases List.mem_append.1 hcmem with hm | hm
      · rw [bne_iff_ne]
        exact customIdChar_ne (customIdChars_mem hcid hm) (by decide)
      · have hc2 : c = ':' ∨ c = ' ' := by simpa using hm
        rcases hc2 with h | h <;> simp [h]
  have htw : (format_clickup_task_context_markdown task subs).data.takeWhile
        (fun c => c != '\n')
      = "# ClickUp Task ".data ++ ((match task.custom_id with
          | some cid => cid ++ ": " | none => "").data ++ task.name.data) := by
    simp only [format_clickup_task_context_markdown, String.data_append, List.append_assoc]
    rw [takeWhile_append_all _ _ _ (by decide)]
    rw [takeWhile_append_all _ _ _ hmid]
    rw [takeWhile_append_all _ _ _ (fun c hc => by
      rw [bne_iff_ne]
      exact fun he => hnl (he ▸ hc))]
    simp
  have hne0 : ¬((format_clickup_task_context_markdown task subs).data = []) := by
    intro h0
    rw [h0] at htw
    simp at htw
  have hgl : ("# ClickUp Task ".data ++ ((match task.custom_id with
      | some cid => cid ++ ": " | none => "").data ++ task.name.data)).getLast?
        ≠ some '\r' := by
    cases hn : task.name.data with
    | cons c l =>
      rw [List.getLast?_append_of_ne_nil _ (fun hemp =>
        absurd (List.append_eq_nil.1 hemp).2 (by simp))]
      rw [List.getLast?_append_of_ne_nil _ (by simp)]
      intro hlast
      refine hcr ?_
      rw [hn]
      exact getLast?_mem_own hlast
    | nil =>
      rw [List.append_nil]
      cases hc : task.custom_id with
      | none => decide
      | some cid =>
        simp only [String.data_append]
        rw [List.getLast?_append_of_ne_nil _ (fun hemp =>
          absurd (List.append_eq_nil.1 hemp).2 (by decide))]
        rw [List.getLast?_append_of_ne_nil _ (by decide)]
        decide
  simp only [firstLine?]
  rw [if_neg hne0, htw, if_neg hgl]

/-- When the parsed heading remainder is the rendered `pre ++ name`
form, the reconstruction recovers the name and the custom ID. -/
theorem reconstructRecord_name_custom (tid : String) (content : String)
    (task : ClickUpTaskDetail)
    (hhr : ((firstLine? content).bind fun line => dropPref? line "# ClickUp Task ")
      = some ⟨(match task.custom_id with
          | some cid => cid ++ ": " | none => "").data ++ task.name.data⟩)
    (hcid : match task.custom_id with
            | some cid => isCustomIdChars cid = true
            | none => ':' ∉ task.name.data) :
    (reconstructRecord tid content).name = task.name ∧
    (reconstructRecord tid content).custom_id = task.custom_id := by
  cases hc : task.custom_id with
  | some cid =>
    rw [hc] at hhr hcid
    have hs : splitOnce? ⟨(cid ++ ": ").data ++ task.name.data⟩ ": "
        = some (cid, task.name) := by
      simp only [splitOnce?, String.data_append, List.append_assoc, List.cons_append,
        List.nil_append]
      rw [splitOnceList_custom_aux cid.data
        (fun c hc2 => customIdChars_mem hcid hc2) task.name.data]
    constructor
    · simp only [reconstructRecord, hhr, Option.some_bind, hs, hcid, if_true]
    · simp only [reconstructRecord, hhr, Option.some_bind, hs, hcid, if_true]
  | none =>
    rw [hc] at hhr hcid
    have hs : splitOnce? ⟨("" : String).data ++ task.name.data⟩ ": " = none := by
      simp only [splitOnce?, String.data_append, List.nil_append]
      rw [splitOnceList_none task.name.data hcid]
    constructor
    · simp only [reconstructRecord, hhr, Option.some_bind, hs]
      rw [List.nil_append]
    · simp only [reconstructRecord, hhr, Option.some_bind, hs]

/-- C4 (counterexample): the round trip fails on a task whose
description contains the comment marker `"### @"` — the reconstruction
counts one comment although the task has none. -/
theorem render_reconstruct_roundtrip_cex :
    (reconstructRecord "t1" (format_clickup_task_context_markdown
        { id := "t1", custom_id := none, name := "T",
          description := some "### @x (y)", markdown_description := none,
          status := ⟨"open", "#d3d3d3", "open"⟩, date_created := "0", url := "u",
          comments := [], subtasks := [] } [])).comment_count
      ≠ ([] : List ClickUpComment).length := by decide

/-- C4 (amended): rendering a task context and parsing it back with the
reconstruction rule of `list_loaded_clickup_task_contexts` returns the
original name, custom ID, comment count and subtask count, provided the
free-text fields do not collide with the parser's markers: the name has
no newline/carriage return, the custom ID (when present) consists of
uppercase/digit/hyphen characters (otherwise the name has no colon), and
no field contains `'@'` or a backtick. -/
theorem render_reconstruct_roundtrip (task : ClickUpTaskDetail)
    (subs : List SubtaskInfo) (tid : String)
    (hnl : '\n' ∉ task.name.data) (hcr : '\r' ∉ task.name.data)
    (hcid : match task.custom_id with
            | some cid => isCustomIdChars cid = true
            | none => ':' ∉ task.name.data)
    (hat : taskFieldsFree '@' task subs) (hbt : taskFieldsFree '`' task subs) :
    (reconstructRecord tid (format_clickup_task_context_markdown task subs)).name
        = task.name ∧
    (reconstructRecord tid (format_clickup_task_context_markdown task subs)).custom_id
        = task.custom_id ∧
    (reconstructRecord tid (format_clickup_task_context_markdown task subs)).comment_count
        = task.comments.length ∧
    (reconstructRecord tid (format_clickup_task_context_markdown task subs)).subtask_count
        = subs.length := by
  have hcid' : match task.custom_id with
      | some cid => isCustomIdChars cid = true | none => True := by
    cases hc : task.custom_id with
    | none => trivial
    | some cid => rw [hc] at hcid; exact hcid
  have hfl := reconstruct_header task subs hnl hcr hcid'
  have hhr : ((firstLine? (format_clickup_task_context_markdown task subs)).bind
        fun line => dropPref? line "# ClickUp Task ")
      = some ⟨(match task.custom_id with
          | some cid => cid ++ ": " | none => "").data ++ task.name.data⟩ := by
    rw [hfl, Option.some_bind]
    exact dropPref_header _
  have hnc := reconstructRecord_name_custom tid
    (format_clickup_task_context_markdown task subs) task hhr hcid
  refine ⟨hnc.1, hnc.2, ?_, ?_⟩
  · simp only [reconstructRecord]
    exact countMatches_render_comments task subs hat
  · simp only [reconstructRecord]
    exact countMatches_render_subtasks task subs hbt

/-! ## Sample values for concrete witnesses -/

/-- A sample task status. -/
def sampleStatus : ClickUpStatus := ⟨"open", "#d3d3d3", "open"⟩

/-- A sample user. -/
def sampleUser : ClickUpUser := ⟨1, "alice", "A"⟩

/-- A sample comment. -/
def sampleComment : ClickUpComment := ⟨"I can reproduce this.", sampleUser, "1700000001000"⟩

/-- A sample task detail: custom ID `PROJ-42`, name `Fix bug`, empty
description, one comment. -/
abbrev sampleDetail : ClickUpTaskDetail :=
  { id := "abc123"
    custom_id := some "PROJ-42"
    name := "Fix bug"
    description := some ""
    markdown_description := none
    status := sampleStatus
    date_created := "1700000000000"
    url := "https://example.test/t/abc123"
    comments := [sampleComment]
    subtasks := [] }

/-- A sample subtask bullet. -/
abbrev sampleSubInfo : SubtaskInfo := ⟨"sub1", "Subtask one", "open"⟩

/-- A sample listed task that is a subtask of `t1`. -/
def sampleSub : ClickUpTask :=
  ⟨"s-a", none, "Subtask A", sampleStatus, "1700000000000", "u", some "t1", []⟩

/-- A sample listed task that is not a subtask of `t1`. -/
def sampleOther : ClickUpTask :=
  ⟨"s-b", none, "Other task", sampleStatus, "1700000000000", "u", some "t9", []⟩

/-! ## Theorems -/

/-- Helper: once the one-shot sender has been taken, every further
`/callback` request answers the success page and leaves the state
unchanged. -/
theorem foldl_callback_resolved (qs : List CallbackParams) (st : OAuthSignalState)
    (outs : List String) (h : st.tx_present = false) :
    qs.foldl (fun acc q =>
        let (st', page) := handle_callback acc.1 q
        (st', acc.2 ++ [page])) (st, outs)
      = (st, outs ++ qs.map fun _ => SUCCESS_HTML) := by
  induction qs generalizing outs with
  | nil => simp
  | cons q qs ih =>
    simp only [List.foldl_cons, List.map_cons]
    rw [show handle_callback st q = (st, SUCCESS_HTML) by simp [handle_callback, h]]
    rw [ih (outs ++ [SUCCESS_HTML])]
    simp

/-- C2 (counterexample): a `/callback` request carrying neither `code`
nor `error` does resolve the one-shot signal — it takes the sender and
sends the default error, so a later request that does carry a code no
longer affects the flow. -/
theorem callback_no_params_resolves_cex :
    (runCallbacks [⟨none, none⟩, ⟨some "AUTHCODE", none⟩]).1.delivered
      = some (.error "No authorization code received") := by decide

/-- Helper: the outcome of `runCallbacks` on a nonempty request
sequence. -/
theorem runCallbacks_cons (q : CallbackParams) (qs : List CallbackParams) :
    runCallbacks (q :: qs) =
      ({ tx_present := false, delivered := some (callbackOutcome q) },
        callbackPage q :: (qs.map fun _ => SUCCESS_HTML)) := by
  have h1 : handle_callback initialSignalState q
      = ({ tx_present := false, delivered := some (callbackOutcome q) }, callbackPage q) := by
    cases hq : q.code <;>
      simp [handle_callback, initialSignalState, callbackOutcome, callbackPage, hq]
  simp only [runCallbacks, List.foldl_cons, h1]
  have h2 := foldl_callback_resolved qs
    { tx_present := false, delivered := some (callbackOutcome q) } [callbackPage q] rfl
  simpa using h2

/-- C2 (amended): the first `/callback` request — whatever parameters it
carries — resolves the one-shot signal, with `Ok(code)` when a code is
present and otherwise with the `error` parameter or a default message;
every later request receives the generic success page and leaves the
signal untouched. -/
theorem callback_first_request_resolves (q : CallbackParams) (qs : List CallbackParams) :
    (runCallbacks (q :: qs)).1.delivered = some (callbackOutcome q) ∧
    (runCallbacks (q :: qs)).1.tx_present = false ∧
    (runCallbacks (q :: qs)).2 = callbackPage q :: (qs.map fun _ => SUCCESS_HTML) := by
  rw [runCallbacks_cons]
  exact ⟨rfl, rfl, rfl⟩

/-- C3 (counterexample): when opening the browser fails,
`clickup_start_oauth` returns the browser-launch error at once — it
never reaches the point where the callback server is spawned and the
signal awaited, contrary to "the listener keeps running". -/
theorem browser_launch_failure_aborts_cex :
    clickup_start_oauth_prelude "client-id" "client-secret" (.ok ()) (.error "boom")
        = .browserError "Failed to open browser: boom" ∧
    clickup_start_oauth_prelude "client-id" "client-secret" (.ok ()) (.error "boom")
        ≠ .awaitingCallback := by
  constructor
  · rfl
  · decide

/-- C3 (amended): with valid credentials and a successfully bound
listener, a failure to open the authorization URL in the system browser
aborts the flow: `clickup_start_oauth` propagates the browser-launch
error and never spawns the callback responder or awaits the callback. -/
theorem browser_launch_failure_aborts (client_id client_secret e : String)
    (h1 : client_id.isEmpty = false) (h2 : client_secret.isEmpty = false) :
    clickup_start_oauth_prelude client_id client_secret (.ok ()) (.error e)
      = .browserError ("Failed to open browser: " ++ e) := by
  simp [clickup_start_oauth_prelude, h1, h2, open_in_browser]

theorem browser_launch_failure_aborts_witness :
    ("my-id" : String).isEmpty = false ∧ ("my-secret" : String).isEmpty = false ∧
    clickup_start_oauth_prelude "my-id" "my-secret" (.ok ()) (.error "spawn failed")
      = .browserError ("Failed to open browser: " ++ "spawn failed") :=
  ⟨rfl, rfl, browser_launch_failure_aborts "my-id" "my-secret" "spawn failed" rfl rfl⟩

/-- C8: with no stored token, every authenticated API operation — user
profile, workspaces, spaces, task listing, task detail, comments and
search — returns `AuthError` without issuing any network request. -/
theorem api_no_token_no_request (wsid tid q : String) (spaceIds : List String)
    (closed subs : Bool) (page : Nat) (assignees : Option (List Nat))
    (sendU sendW sendS sendT sendD sendC send1 send2 : Except String HttpResponse)
    (pU : HttpResponse → Except String ClickUpAuthenticatedUser)
    (pW : HttpResponse → Except String (List ClickUpWorkspace))
    (pS : HttpResponse → Except String (List ClickUpSpace))
    (pT : HttpResponse → Except String ClickUpTaskListResult)
    (pD : HttpResponse → Except String ClickUpTaskDetail)
    (pC : HttpResponse → Except String (List ClickUpComment))
    (p1 p2 : HttpResponse → Except String ClickUpTask) :
    get_authorized_user none sendU pU = ⟨0, none, .error (.AuthError notAuthMsg)⟩ ∧
    list_workspaces none sendW pW = ⟨0, none, .error (.AuthError notAuthMsg)⟩ ∧
    list_spaces wsid none sendS pS = ⟨0, none, .error (.AuthError notAuthMsg)⟩ ∧
    list_tasks wsid spaceIds closed page assignees subs none sendT pT
      = ⟨0, none, .error (.AuthError notAuthMsg)⟩ ∧
    get_task tid none sendD pD = ⟨0, none, .error (.AuthError notAuthMsg)⟩ ∧
    get_task_comments tid none sendC pC = ⟨0, none, .error (.AuthError notAuthMsg)⟩ ∧
    search_task_by_id q wsid none send1 p1 send2 p2
      = ⟨0, none, .error (.AuthError notAuthMsg)⟩ :=
  ⟨rfl, rfl, rfl, rfl, rfl, rfl, rfl⟩

/-- C1 (counterexample): the broad workspace listing used for subtask
discovery fails, yet `load_clickup_task_context` succeeds — the failure
is swallowed (`unwrap_or_default`) and the parent record is produced
with zero subtasks, contrary to "all three fetches must complete". -/
theorem load_context_subtask_listing_failure_cex :
    ∃ res, load_clickup_task_context "s1" "t1" "w1" (.ok sampleDetail) (.ok [sampleComment])
        (.error (.RequestError "network down"))
        (fun _ => (.error (.RequestError "x"), .error (.RequestError "x")))
      = .ok res ∧ res.record.subtask_count = 0 :=
  ⟨_, rfl, rfl⟩

/-- C1 (amended): of the three initial parallel fetches, only the task
detail and the task comments must complete: failure of either aborts
`load_clickup_task_context` with that fetch's error message, and no
`LoadResult` (hence no writes) is produced; a failure of the broad
workspace task listing does not abort — it yields an empty subtask set
and the operation still succeeds. -/
theorem load_context_initial_fetch_policy (sid tid wsid : String) (e : ClickUpApiError)
    (cr : Except ClickUpApiError (List ClickUpComment))
    (sr : Except ClickUpApiError ClickUpTaskListResult)
    (subFetch : String →
      Except ClickUpApiError ClickUpTaskDetail × Except ClickUpApiError (List ClickUpComment))
    (task : ClickUpTaskDetail) (comments : List ClickUpComment) :
    load_clickup_task_context sid tid wsid (.error e) cr sr subFetch = .error e.toMessage ∧
    load_clickup_task_context sid tid wsid (.ok task) (.error e) sr subFetch
      = .error e.toMessage ∧
    ∃ res, load_clickup_task_context sid tid wsid (.ok task) (.ok comments) (.error e) subFetch
      = .ok res ∧ res.record.comment_count = comments.length :=
  ⟨rfl, rfl, _, rfl, rfl⟩

/-- C9: rendering the sample task (custom ID `PROJ-42`, name `Fix bug`,
empty description) yields markdown starting with
`# ClickUp Task PROJ-42: Fix bug` and containing the literal placeholder
`*No description provided.*`; when `custom_id` is absent the heading has
no custom-ID prefix, starting `# ClickUp Task {name}` directly. -/
theorem render_heading_and_placeholder :
    strStartsWith (format_clickup_task_context_markdown sampleDetail [])
        "# ClickUp Task PROJ-42: Fix bug" = true ∧
    containsSub (format_clickup_task_context_markdown sampleDetail [])
        "*No description provided.*" = true ∧
    ∀ (task : ClickUpTaskDetail) (subs : List SubtaskInfo), task.custom_id = none →
      strStartsWith (format_clickup_task_context_markdown task subs)
          ("# ClickUp Task " ++ task.name) = true := by
  refine ⟨by decide, by decide, ?_⟩
  intro task subs hnone
  simp only [strStartsWith, List.isPrefixOf_iff_prefix,
    format_clickup_task_context_markdown, hnone, String.data_append, List.append_assoc]
  simp only [List.nil_append]
  rw [← List.append_assoc]
  exact List.prefix_append _ _

theorem render_heading_and_placeholder_witness :
    ({ sampleDetail with custom_id := none } : ClickUpTaskDetail).custom_id = none ∧
    strStartsWith
        (format_clickup_task_context_markdown { sampleDetail with custom_id := none } [])
        ("# ClickUp Task " ++ ({ sampleDetail with custom_id := none } : ClickUpTaskDetail).name)
      = true :=
  ⟨rfl, render_heading_and_placeholder.2.2 { sampleDetail with custom_id := none } [] rfl⟩

/-- Helper: every record accumulated by `listStep` folds either was in
the accumulator already or carries an empty `workspace_id`. -/
theorem mem_foldl_listStep (readFile : String → Option String) (keys : List String)
    (acc : List LoadedClickUpTaskContext) (rec : LoadedClickUpTaskContext)
    (h : rec ∈ keys.foldl (listStep readFile) acc) :
    rec ∈ acc ∨ rec.workspace_id = "" := by
  induction keys generalizing acc with
  | nil => exact .inl (by simpa using h)
  | cons key keys ih =>
    rcases ih _ (by simpa using h) with hmem | hws
    · rcases hp : dropPref? key "clickup-" with _ | task_id
      · simp only [listStep, hp] at hmem
        exact .inl hmem
      · rcases hr : readFile ("clickup-task-" ++ task_id ++ ".md") with _ | content
        · simp only [listStep, hp, hr] at hmem
          exact .inl hmem
        · simp only [listStep, hp, hr] at hmem
          rcases List.mem_append.1 hmem with hmem' | hmem'
          · exact .inl hmem'
          · right
            rw [List.mem_singleton.1 hmem']
            rfl
    · exact .inr hws

/-- C10: every record produced by `list_loaded_clickup_task_contexts`
has an empty `workspace_id` — the workspace identifier is not stored in
the markdown file and is not reconstructed — although a successful
`load_clickup_task_context` returns the record with the real
`workspace_id` it was given. -/
theorem workspace_id_not_reconstructed
    (keys : List String) (readFile : String → Option String)
    (rec : LoadedClickUpTaskContext)
    (hmem : rec ∈ list_loaded_clickup_task_contexts keys readFile)
    (sid tid wsid : String)
    (tr : Except ClickUpApiError ClickUpTaskDetail)
    (cr : Except ClickUpApiError (List ClickUpComment))
    (sr : Except ClickUpApiError ClickUpTaskListResult)
    (subFetch : String →
      Except ClickUpApiError ClickUpTaskDetail × Except ClickUpApiError (List ClickUpComment))
    (res : LoadResult)
    (hload : load_clickup_task_context sid tid wsid tr cr sr subFetch = .ok res) :
    rec.workspace_id = "" ∧ res.record.workspace_id = wsid := by
  constructor
  · rcases mem_foldl_listStep readFile keys [] rec
        (by simpa [list_loaded_clickup_task_contexts] using hmem) with h | h
    · simp at h
    · exact h
  · cases tr with
    | error e => simp [load_clickup_task_context] at hload
    | ok task =>
      cases cr with
      | error e => simp [load_clickup_task_context] at hload
      | ok comments =>
        simp only [load_clickup_task_context, Except.ok.injEq] at hload
        rw [← hload]

/-- A sample successful `load_clickup_task_context` run (subtask listing
failed, no subtasks). -/
def sampleLoad : Except String LoadResult :=
  load_clickup_task_context "s" "t1" "w7" (.ok sampleDetail) (.ok [])
    (.error (.RequestError "e"))
    (fun _ => (.error (.RequestError "x"), .error (.RequestError "x")))

/-- The `LoadResult` of `sampleLoad`. -/
def sampleLoadRes : LoadResult :=
  sampleLoad.toOption.getD ⟨[], [], ⟨"", none, "", 0, "", 0⟩⟩

theorem workspace_id_not_reconstructed_witness :
    (reconstructRecord "t1" "# ClickUp Task X\n").workspace_id = "" ∧
    sampleLoadRes.record.workspace_id = "w7" :=
  workspace_id_not_reconstructed ["clickup-t1"] (fun _ => some "# ClickUp Task X\n")
    (reconstructRecord "t1" "# ClickUp Task X\n") (by decide)
    "s" "t1" "w7" (.ok sampleDetail) (.ok []) (.error (.RequestError "e"))
    (fun _ => (.error (.RequestError "x"), .error (.RequestError "x")))
    sampleLoadRes (by decide)

/-- C7: the subtask set computed by `load_clickup_task_context` from the
broad workspace listing contains exactly the listed tasks whose `parent`
equals the queried task id, and reordering the listing permutes — never
changes — that set. -/
theorem subtask_filter_exact (task_id : String) (r r' : ClickUpTaskListResult)
    (t : ClickUpTask) (hperm : r.tasks.Perm r'.tasks) :
    (t ∈ subtasksOf task_id r ↔ t ∈ r.tasks ∧ t.parent = some task_id) ∧
    (subtasksOf task_id r).Perm (subtasksOf task_id r') := by
  constructor
  · simp [subtasksOf, List.mem_filter]
  · exact hperm.filter _

theorem subtask_filter_exact_witness :
    ((⟨[sampleSub, sampleOther], true⟩ : ClickUpTaskListResult).tasks.Perm
        (⟨[sampleOther, sampleSub], true⟩ : ClickUpTaskListResult).tasks) ∧
    ((sampleSub ∈ subtasksOf "t1" ⟨[sampleSub, sampleOther], true⟩ ↔
        sampleSub ∈ (⟨[sampleSub, sampleOther], true⟩ : ClickUpTaskListResult).tasks ∧
          sampleSub.parent = some "t1") ∧
      (subtasksOf "t1" ⟨[sampleSub, sampleOther], true⟩).Perm
        (subtasksOf "t1" ⟨[sampleOther, sampleSub], true⟩)) :=
  ⟨List.Perm.swap sampleOther sampleSub [],
    subtask_filter_exact "t1" ⟨[sampleSub, sampleOther], true⟩ ⟨[sampleOther, sampleSub], true⟩
      sampleSub (List.Perm.swap sampleOther sampleSub [])⟩

/-- C6: an HTTP 401 on any authenticated call returns `AuthError` and
clears the stored token; a subsequent call on the cleared store again
returns `AuthError` without issuing a network request. -/
theorem api_401_clears_token (tok wsid tid q : String) (spaceIds : List String)
    (closed subs : Bool) (page : Nat) (assignees : Option (List Nat))
    (resp : HttpResponse) (h401 : resp.status = 401)
    (pU : HttpResponse → Except String ClickUpAuthenticatedUser)
    (pW : HttpResponse → Except String (List ClickUpWorkspace))
    (pS : HttpResponse → Except String (List ClickUpSpace))
    (pT : HttpResponse → Except String ClickUpTaskListResult)
    (pD : HttpResponse → Except String ClickUpTaskDetail)
    (pC : HttpResponse → Except String (List ClickUpComment))
    (p1 p2 : HttpResponse → Except String ClickUpTask)
    (send2 sendU2 : Except String HttpResponse)
    (pU2 : HttpResponse → Except String ClickUpAuthenticatedUser) :
    get_authorized_user (some tok) (.ok resp) pU
      = ⟨1, none, .error (.AuthError invalidTokenMsg)⟩ ∧
    list_workspaces (some tok) (.ok resp) pW
      = ⟨1, none, .error (.AuthError invalidTokenMsg)⟩ ∧
    list_spaces wsid (some tok) (.ok resp) pS
      = ⟨1, none, .error (.AuthError invalidTokenMsg)⟩ ∧
    list_tasks wsid spaceIds closed page assignees subs (some tok) (.ok resp) pT
      = ⟨1, none, .error (.AuthError invalidTokenMsg)⟩ ∧
    get_task tid (some tok) (.ok resp) pD
      = ⟨1, none, .error (.AuthError invalidTokenMsg)⟩ ∧
    get_task_comments tid (some tok) (.ok resp) pC
      = ⟨1, none, .error (.AuthError invalidTokenMsg)⟩ ∧
    search_task_by_id q wsid (some tok) (.ok resp) p1 send2 p2
      = ⟨1, none, .error (.AuthError invalidTokenMsg)⟩ ∧
    get_authorized_user none sendU2 pU2 = ⟨0, none, .error (.AuthError notAuthMsg)⟩ := by
  have hcr : check_response (some tok) resp = (none, .error (.AuthError invalidTokenMsg)) := by
    simp [check_response, h401]
  refine ⟨?_, ?_, ?_, ?_, ?_, ?_, ?_, rfl⟩ <;>
    simp [get_authorized_user, list_workspaces, list_spaces, list_tasks, get_task,
      get_task_comments, search_task_by_id, require_token, hcr, h401]

/-- A 401 response used in witnesses. -/
def resp401 : HttpResponse := ⟨401, none, none, "Unauthorized"⟩

theorem api_401_clears_token_witness :
    resp401.status = 401 ∧
    get_authorized_user (some "tok") (.ok resp401) (fun _ => .error "p")
      = ⟨1, none, .error (.AuthError invalidTokenMsg)⟩ :=
  ⟨rfl,
    (api_401_clears_token "tok" "w" "t" "q" [] false false 0 none resp401 rfl
      (fun _ => .error "p") (fun _ => .error "p") (fun _ => .error "p") (fun _ => .error "p")
      (fun _ => .error "p") (fun _ => .error "p") (fun _ => .error "p") (fun _ => .error "p")
      (.error "e") (.error "e") (fun _ => .error "p")).1⟩

/-- C5: on `search_task_by_id`, 401/429 on the first (internal-ID)
lookup short-circuit as `AuthError` / `RateLimited`; any other
non-success first status falls through to the custom-ID lookup (a second
request is issued), where 401/429 still short-circuit, and the overall
result is `Ok(None)` exactly when that second lookup is also
inconclusive. -/
theorem search_task_by_id_policy (q wsid tok : String) (r1 r2 : HttpResponse)
    (p1 p2 : HttpResponse → Except String ClickUpTask) :
    (r1.status = 401 →
      search_task_by_id q wsid (some tok) (.ok r1) p1 (.ok r2) p2
        = ⟨1, none, .error (.AuthError invalidTokenMsg)⟩) ∧
    (r1.status = 429 →
      search_task_by_id q wsid (some tok) (.ok r1) p1 (.ok r2) p2
        = ⟨1, some tok, .error (.RateLimited r1.rlReset)⟩) ∧
    (isSuccessStatus r1.status = false → r1.status ≠ 401 → r1.status ≠ 429 →
      (search_task_by_id q wsid (some tok) (.ok r1) p1 (.ok r2) p2).requests = 2 ∧
      (r2.status = 401 →
        search_task_by_id q wsid (some tok) (.ok r1) p1 (.ok r2) p2
          = ⟨2, none, .error (.AuthError invalidTokenMsg)⟩) ∧
      (r2.status = 429 →
        search_task_by_id q wsid (some tok) (.ok r1) p1 (.ok r2) p2
          = ⟨2, some tok, .error (.RateLimited r2.rlReset)⟩) ∧
      ((search_task_by_id q wsid (some tok) (.ok r1) p1 (.ok r2) p2).result = .ok none ↔
        r2.status ≠ 401 ∧ r2.status ≠ 429 ∧
          ∀ t, ¬(isSuccessStatus r2.status = true ∧ p2 r2 = .ok t))) := by
  refine ⟨?_, ?_, ?_⟩
  · intro h
    simp [search_task_by_id, require_token, h]
  · intro h
    simp [search_task_by_id, require_token, h]
  · intro hs h1 h2
    by_cases ha : r2.status = 401
    · refine ⟨?_, ?_, ?_, ?_⟩ <;>
        simp [search_task_by_id, require_token, hs, h1, h2, ha]
    · by_cases hb : r2.status = 429
      · refine ⟨?_, ?_, ?_, ?_⟩ <;>
          simp [search_task_by_id, require_token, hs, h1, h2, ha, hb]
      · by_cases hc : isSuccessStatus r2.status
        · cases hp : p2 r2 with
          | ok t =>
            refine ⟨?_, ?_, ?_, ?_⟩ <;>
              simp [search_task_by_id, require_token, hs, h1, h2, ha, hb, hc, hp]
          | error msg =>
            refine ⟨?_, ?_, ?_, ?_⟩ <;>
              simp [search_task_by_id, require_token, hs, h1, h2, ha, hb, hc, hp]
        · refine ⟨?_, ?_, ?_, ?_⟩ <;>
            simp [search_task_by_id, require_token, hs, h1, h2, ha, hb, hc]

/-- A 404 response used in witnesses. -/
def resp404 : HttpResponse := ⟨404, none, none, "not found"⟩

/-- A parse that always fails, used in witnesses. -/
def parseFail : HttpResponse → Except String ClickUpTask := fun _ => .error "parse error"

theorem search_task_by_id_policy_witness :
    isSuccessStatus resp404.status = false ∧
    (search_task_by_id "q" "w" (some "tok") (.ok resp404) parseFail (.ok resp404)
      parseFail).requests = 2 :=
  ⟨rfl,
    ((search_task_by_id_policy "q" "w" "tok" resp404 resp404 parseFail parseFail).2.2
      rfl (by decide) (by decide)).1⟩

theorem render_reconstruct_roundtrip_witness :
    '\n' ∉ sampleDetail.name.data ∧ '\r' ∉ sampleDetail.name.data ∧
    (match sampleDetail.custom_id with
     | some cid => isCustomIdChars cid = true
     | none => ':' ∉ sampleDetail.name.data) ∧
    taskFieldsFree '@' sampleDetail [sampleSubInfo] ∧
    taskFieldsFree '`' sampleDetail [sampleSubInfo] ∧
    ((reconstructRecord "abc123"
        (format_clickup_task_context_markdown sampleDetail [sampleSubInfo])).name
          = sampleDetail.name ∧
      (reconstructRecord "abc123"
        (format_clickup_task_context_markdown sampleDetail [sampleSubInfo])).custom_id
          = sampleDetail.custom_id ∧
      (reconstructRecord "abc123"
        (format_clickup_task_context_markdown sampleDetail [sampleSubInfo])).comment_count
          = sampleDetail.comments.length ∧
      (reconstructRecord "abc123"
        (format_clickup_task_context_markdown sampleDetail [sampleSubInfo])).subtask_count
          = [sampleSubInfo].length) :=
  ⟨by decide, by decide, by decide, by decide, by decide,
    render_reconstruct_roundtrip sampleDetail [sampleSubInfo] "abc123"
      (by decide) (by decide) (by decide) (by decide) (by decide)⟩

end ClickUp
